import Mathlib

/-!
Verification development for the IRIS Document Analysis Pipeline
(`src/utils/parser.py`, `src/utils/analysis.py`, `src/utils/extraction.py`).

The Python sources drive field extraction with `re.search` over lowered text.
We embed the fragment of Python regular expressions those patterns use
(literals, character classes, alternation, greedy star, bounded repetition,
capture groups and the word boundary assertion) as a backtracking matcher
that enumerates candidate matches in Python preference order (leftmost
start, greedy quantifiers, left alternative first); the head of the
candidate list is the match `re.search` returns.
-/

namespace Iris

inductive RE where
  | eps
  | lit (c : Char)
  | cls (p : Char → Bool)
  | seq (a b : RE)
  | alt (a b : RE)
  | star (a : RE)
  | group (n : Nat) (a : RE)
  | wordB

/-- Python `\w` on the ASCII texts handled here: letters, digits, underscore. -/
def isWordChar (c : Char) : Bool := c.isAlpha || c.isDigit || c == '_'

/-- Python `\s` (ASCII part): space, tab, newline, carriage return, form feed, vertical tab. -/
def pySpace (c : Char) : Bool :=
  c == ' ' || c == '\t' || c == '\n' || c == '\r' || c == '\x0c' || c == '\x0b'

/-- Captured groups: association list from group index to captured characters. -/
abbrev Caps := List (Nat × List Char)

/-- One step of the backtracking matcher.  `matchRe fuel re s i caps` returns
the list of `(end position, captures)` candidates for matching `re` in `s`
starting at `i`, in Python preference order.  `fuel` bounds the nesting depth
of the recursion and is chosen large enough (see `reFuel`) never to run out. -/
def matchRe : Nat → RE → List Char → Nat → Caps → List (Nat × Caps)
  | 0, _, _, _, _ => []
  | fuel + 1, re, s, i, caps =>
    match re with
    | .eps => [(i, caps)]
    | .lit c =>
      match s.get? i with
      | some c2 => if c2 == c then [(i + 1, caps)] else []
      | none => []
    | .cls p =>
      match s.get? i with
      | some c2 => if p c2 then [(i + 1, caps)] else []
      | none => []
    | .seq a b =>
      (matchRe fuel a s i caps).foldr
        (fun x acc => matchRe fuel b s x.1 x.2 ++ acc) []
    | .alt a b => matchRe fuel a s i caps ++ matchRe fuel b s i caps
    | .star a =>
      ((matchRe fuel a s i caps).foldr
        (fun x acc =>
          (if i < x.1 then matchRe fuel (.star a) s x.1 x.2 else []) ++ acc) [])
        ++ [(i, caps)]
    | .group n a =>
      (matchRe fuel a s i caps).map
        (fun x => (x.1, (n, (s.drop i).take (x.1 - i)) :: x.2))
    | .wordB =>
      let before := match i with
        | 0 => false
        | k + 1 => match s.get? k with | some c => isWordChar c | none => false
      let after := match s.get? i with | some c => isWordChar c | none => false
      if before == after then [] else [(i, caps)]

/-- Size of a regular expression (number of constructors). -/
def reSize : RE → Nat
  | .eps => 1
  | .lit _ => 1
  | .cls _ => 1
  | .seq a b => reSize a + reSize b + 1
  | .alt a b => reSize a + reSize b + 1
  | .star a => reSize a + 1
  | .group _ a => reSize a + 1
  | .wordB => 1

/-- Fuel that dominates the recursion depth of `matchRe` for pattern `re`
over a string of length `len`. -/
def reFuel (re : RE) (len : Nat) : Nat := (reSize re + 2) * (len + 2) + 64

/-- Try to match `re` at successive start positions (the scan of `re.search`). -/
def searchFrom (re : RE) (s : List Char) : Nat → Nat → Option Caps
  | 0, _ => none
  | n + 1, i =>
    match matchRe (reFuel re s.length) re s i [] with
    | x :: _ => some x.2
    | [] => searchFrom re s n (i + 1)

/-- Model of Python `re.search(pattern, s)`: `some captures` on a match,
`none` when no start position matches. -/
def reSearch (re : RE) (s : List Char) : Option Caps :=
  searchFrom re s (s.length + 1) 0

/-- Captured text of group `n` (empty when the group is absent). -/
def capOr (caps : Caps) (n : Nat) : List Char :=
  ((caps.find? (fun p => p.1 == n)).map (fun p => p.2)).getD []

/-- Number of capture groups in a pattern (Python `match.groups()` length). -/
def numGroups : RE → Nat
  | .eps => 0
  | .lit _ => 0
  | .cls _ => 0
  | .seq a b => numGroups a + numGroups b
  | .alt a b => numGroups a + numGroups b
  | .star a => numGroups a
  | .group _ a => numGroups a + 1
  | .wordB => 0

/-- Sequence a list of regexes. -/
def seqs (l : List RE) : RE := l.foldr .seq .eps

/-- Alternate a list of regexes, left alternative preferred. -/
def alts (l : List RE) : RE := l.foldr .alt (.cls (fun _ => false))

/-- Literal string pattern. -/
def rstr (t : String) : RE := seqs (t.data.map .lit)

/-- Zero-or-one (`?`), preferring to consume. -/
def ropt (a : RE) : RE := .alt a .eps

/-- One-or-more (`+`), greedy. -/
def rplus (a : RE) : RE := .seq a (.star a)

/-- Exactly `n` copies. -/
def rrep (a : RE) : Nat → RE
  | 0 => .eps
  | n + 1 => .seq a (rrep a n)

/-- Greedy optional chain of up to `n` further copies. -/
def roptN (a : RE) : Nat → RE
  | 0 => .eps
  | n + 1 => ropt (.seq a (roptN a n))

/-- Bounded repetition `a{lo,hi}`, greedy. -/
def rrange (a : RE) (lo hi : Nat) : RE := .seq (rrep a lo) (roptN a (hi - lo))

/-- Character class `\d`. -/
def dcls : RE := .cls Char.isDigit

/-- Character class `\s`. -/
def scls : RE := .cls pySpace

/-- Character class `[:\s]`. -/
def colonSp : RE := .cls (fun c => c == ':' || pySpace c)

/-- Character class matching a slash or a dash. -/
def slashDash : RE := .cls (fun c => c == '/' || c == '-')

/-- Digit run to a natural number (Python `int` on a digit string). -/
def digitsToNat (cs : List Char) : Nat :=
  cs.foldl (fun n c => n * 10 + (c.toNat - 48)) 0

/-- Python `float` on a captured amount string after removing commas; the
regexes only capture digit runs with an optional short decimal part, so the
value is represented exactly as a rational. -/
def parseAmount (cs : List Char) : ℚ :=
  let cs := cs.filter (fun c => !(c == ','))
  let intPart := cs.takeWhile (fun c => !(c == '.'))
  let rest := (cs.dropWhile (fun c => !(c == '.'))).drop 1
  (digitsToNat intPart : ℚ) + (digitsToNat rest : ℚ) / ((10 : ℚ) ^ rest.length)

/-- Substring test, Python's `needle in haystack`. -/
def containsSub (needle : List Char) : List Char → Bool
  | [] => needle.isEmpty
  | c :: cs => needle.isPrefixOf (c :: cs) || containsSub needle cs

/-- Python `str.strip()` on a character list. -/
def stripChars (cs : List Char) : List Char :=
  ((cs.dropWhile pySpace).reverse.dropWhile pySpace).reverse

/-- Python `str.lower()` on one character (ASCII; the texts' non-ASCII
characters are unaffected by lowering). -/
def pyLower (c : Char) : Char :=
  if 65 ≤ c.toNat && c.toNat ≤ 90 then Char.ofNat (c.toNat + 32) else c

/-- Python `str.lower()` on a character list. -/
def lowerChars (cs : List Char) : List Char := cs.map pyLower

/-- Python `str.lower()`. -/
def strLower (s : String) : String := ⟨lowerChars s.data⟩

/-- Python `str.strip()`. -/
def strStrip (s : String) : String := ⟨stripChars s.data⟩

/-- Python `sep.join(l)`. -/
def joinSep (sep : String) : List String → String
  | [] => ""
  | x :: xs => xs.foldl (fun acc s => acc ++ sep ++ s) x

/-!
Patterns of `src/utils/parser.py`.  Every pattern is applied by the source to
`text.lower()`, so the literals below are the lowercase spellings.
-/

/-- The five patterns of `extract_age`; the final two are the date-of-birth
forms with three capture groups. -/
def agePatterns : List RE := [
  seqs [rstr "age", rplus colonSp, .group 1 (rrange dcls 2 3)],
  seqs [.group 1 (rrep dcls 2), .star scls, rstr "year", ropt (.lit 's'),
        .star scls, rstr "old"],
  seqs [rstr "age", .star colonSp, .group 1 (rrange dcls 2 3), .star scls,
        rstr "year", ropt (.lit 's')],
  seqs [rstr "dob", rplus colonSp, .group 1 (rrange dcls 1 2), slashDash,
        .group 2 (rrange dcls 1 2), slashDash, .group 3 (rrep dcls 4)],
  seqs [rstr "date", rplus scls, rstr "of", rplus scls, rstr "birth",
        rplus colonSp, .group 1 (rrange dcls 1 2), slashDash,
        .group 2 (rrange dcls 1 2), slashDash, .group 3 (rrep dcls 4)]]

/-- Loop body of `extract_age`: first matching pattern wins; a date-of-birth
match (three groups) computes the age from the current year; any value
outside `[18, 100]` lets the loop continue with the next pattern. -/
def extractAgeLoop (nowYear : Nat) (s : List Char) : List RE → Option Nat
  | [] => none
  | p :: ps =>
    match reSearch p s with
    | some caps =>
      if numGroups p == 3 then
        let year := digitsToNat (capOr caps 3)
        if year > 1900 then
          let age : Int := (nowYear : Int) - (year : Int)
          if 18 ≤ age ∧ age ≤ 100 then some age.toNat
          else extractAgeLoop nowYear s ps
        else extractAgeLoop nowYear s ps
      else
        let age := digitsToNat (capOr caps 1)
        if 18 ≤ age ∧ age ≤ 100 then some age
        else extractAgeLoop nowYear s ps
    | none => extractAgeLoop nowYear s ps

/-- `extract_age`.  `nowYear` stands for `datetime.now().year`. -/
def extract_age (nowYear : Nat) (text : String) : Option Nat :=
  extractAgeLoop nowYear (lowerChars text.data) agePatterns

/-- Pattern `\bgender[:\s]*(male|m)\b`. -/
def genderMaleRe : RE :=
  seqs [.wordB, rstr "gender", .star colonSp,
        .group 1 (.alt (rstr "male") (rstr "m")), .wordB]

/-- Pattern `\bgender[:\s]*(female|f)\b`. -/
def genderFemaleRe : RE :=
  seqs [.wordB, rstr "gender", .star colonSp,
        .group 1 (.alt (rstr "female") (rstr "f")), .wordB]

/-- Pattern for male honorifics. -/
def titleMaleRe : RE :=
  seqs [.wordB, .group 1 (alts [rstr "mr.", rstr "mr", rstr "sir"]), .wordB]

/-- Pattern for female honorifics excluded around the male-title check. -/
def titleFemaleShortRe : RE :=
  seqs [.wordB, .group 1 (alts [rstr "mrs.", rstr "mrs", rstr "ms.",
        rstr "ms", rstr "miss"]), .wordB]

/-- Pattern for female honorifics. -/
def titleFemaleRe : RE :=
  seqs [.wordB, .group 1 (alts [rstr "mrs.", rstr "mrs", rstr "ms.",
        rstr "ms", rstr "miss", rstr "madam"]), .wordB]

/-- `extract_gender`. -/
def extract_gender (text : String) : Option String :=
  let t := lowerChars text.data
  if (reSearch genderMaleRe t).isSome then some "male"
  else if (reSearch genderFemaleRe t).isSome then some "female"
  else if (reSearch titleMaleRe t).isSome && !(reSearch titleFemaleShortRe t).isSome
    then some "male"
  else if (reSearch titleFemaleRe t).isSome then some "female"
  else none

/-- Pattern for the unemployed keyword family. -/
def unemployedRe : RE :=
  seqs [.wordB, .group 1 (alts [rstr "unemployed", rstr "jobless",
        seqs [rstr "not", rplus scls, rstr "working"],
        seqs [rstr "no", rplus scls, rstr "job"],
        seqs [rstr "not", rplus scls, rstr "employed"]]), .wordB]

def highly_skilled_keywords : List String := [
  "engineer", "doctor", "lawyer", "architect", "professor", "surgeon",
  "manager", "director", "ceo", "cfo", "cto", "executive", "vp",
  "consultant", "analyst", "scientist", "researcher", "specialist",
  "chartered accountant", "ca", "mba", "phd", "md"]

def skilled_keywords : List String := [
  "technician", "nurse", "teacher", "accountant", "programmer", "developer",
  "electrician", "plumber", "mechanic", "carpenter", "chef", "cook",
  "officer", "supervisor", "coordinator", "administrator", "designer",
  "clerk", "cashier", "operator", "driver", "salesman"]

def unskilled_keywords : List String := [
  "helper", "assistant", "cleaner", "guard", "security",
  "laborer", "labourer", "worker", "peon", "attendant",
  "watchman", "housekeeping", "daily wage"]

/-- Pattern for generic employment mentions. -/
def employedRe : RE :=
  seqs [.wordB, .group 1 (alts [rstr "employed", rstr "occupation",
        rstr "profession", rstr "job", rstr "work", rstr "working"]), .wordB]

/-- `classify_job_category`. -/
def classify_job_category (text : String) : String :=
  let t := lowerChars text.data
  if (reSearch unemployedRe t).isSome then "unemployed"
  else if highly_skilled_keywords.any (fun k => containsSub k.data t) then
    "highly skilled"
  else if skilled_keywords.any (fun k => containsSub k.data t) then "skilled"
  else if unskilled_keywords.any (fun k => containsSub k.data t) then
    "unskilled"
  else if (reSearch employedRe t).isSome then "skilled"
  else "unemployed"

/-- Pattern for own-housing keywords. -/
def housingOwnRe : RE :=
  seqs [.wordB, .group 1 (alts [rstr "own", rstr "owned", rstr "owner",
        seqs [rstr "self", .cls (fun c => c == '-' || c == ' '), rstr "owned"],
        seqs [rstr "property", rplus scls, rstr "owner"]]), .wordB]

/-- Pattern for rent-housing keywords. -/
def housingRentRe : RE :=
  seqs [.wordB, .group 1 (alts [rstr "rent", rstr "rented", rstr "rental",
        rstr "tenant", rstr "lease", rstr "leased", rstr "renting"]), .wordB]

/-- Pattern for free-housing keywords. -/
def housingFreeRe : RE :=
  seqs [.wordB, .group 1 (alts [rstr "free", rstr "provided",
        seqs [rstr "company", rplus scls, rstr "housing"], rstr "parents",
        seqs [rstr "family", rplus scls, rstr "house"],
        seqs [rstr "no", rplus scls, rstr "rent"]]), .wordB]

/-- `classify_housing_type`. -/
def classify_housing_type (text : String) : String :=
  let t := lowerChars text.data
  if (reSearch housingOwnRe t).isSome then "own"
  else if (reSearch housingRentRe t).isSome then "rent"
  else if (reSearch housingFreeRe t).isSome then "free"
  else "rent"

/-- Currency alternative `rs\.?|₹|inr|\$`. -/
def currencyRe : RE :=
  alts [.seq (rstr "rs") (ropt (.lit '.')), .lit '₹', rstr "inr", .lit '$']

/-- Amount shape `\d+(?:,\d{3})*(?:\.\d{2})?` of `extract_credit_amount`
(raw-string patterns, so the braced counts are real quantifiers). -/
def amountRe : RE :=
  seqs [rplus dcls, .star (seqs [.lit ',', rrep dcls 3]),
        ropt (seqs [.lit '.', rrep dcls 2])]

/-- Amount shape of `extract_account_amount`.  Those two patterns are
f-strings, so Python consumes `{3}` and `{2}` as format fields: the regex
that actually runs is `\d+(?:,\d3)*(?:\.\d2)?`, with literal `3` and `2`. -/
def amountFRe : RE :=
  seqs [rplus dcls, .star (seqs [.lit ',', dcls, .lit '3']),
        ropt (seqs [.lit '.', dcls, .lit '2'])]

/-- The two f-string patterns of `extract_account_amount`. -/
def accountAmountPatterns (accountType : String) : List RE := [
  seqs [rstr accountType, .star colonSp,
        ropt (.alt (rstr "balance") (rstr "account")), .star colonSp,
        ropt currencyRe, .star scls, .group 1 amountFRe],
  seqs [rstr accountType, .star colonSp, .alt (rstr "a/c") (rstr "acc"),
        .star colonSp, ropt currencyRe, .star scls, .group 1 amountFRe]]

/-- Loop of `extract_account_amount`: first matching pattern yields its
captured amount (no positivity filter). -/
def extractAccountLoop (s : List Char) : List RE → Option ℚ
  | [] => none
  | p :: ps =>
    match reSearch p s with
    | some caps => some (parseAmount (capOr caps 1))
    | none => extractAccountLoop s ps

/-- `extract_account_amount`. -/
def extract_account_amount (text : String) (accountType : String) : Option ℚ :=
  extractAccountLoop (lowerChars text.data) (accountAmountPatterns accountType)

/-- Keyword pattern `saving[s]?[:\s]*(...)` with the given alternatives. -/
def savingsKw (alt1 : List RE) : RE :=
  seqs [rstr "saving", ropt (.lit 's'), .star colonSp, .group 1 (alts alt1)]

/-- Keyword pattern `checking[:\s]*(...)` with the given alternatives. -/
def checkingKw (alt1 : List RE) : RE :=
  seqs [rstr "checking", .star colonSp, .group 1 (alts alt1)]

/-- The explicit-mention branch of `classify_savings_level`: the ordered
keyword rules tried when no numeric balance was extracted, with the final
default `"little"`. -/
def savingsKeywordClassify (t : List Char) : String :=
  if (reSearch (savingsKw [rstr "none", rstr "no", rstr "zero", rstr "nil",
        seqs [.wordB, .lit '0', .wordB]]) t).isSome then "none"
  else if (reSearch (savingsKw [rstr "little", rstr "small", rstr "minimal",
        rstr "low"]) t).isSome then "little"
  else if (reSearch (savingsKw [seqs [rstr "quite", rplus scls, rstr "rich"],
        seqs [rstr "very", rplus scls, rstr "good"], rstr "substantial",
        rstr "significant"]) t).isSome then "quite rich"
  else if (reSearch (savingsKw [rstr "rich", rstr "high", rstr "excellent",
        rstr "strong"]) t).isSome then "rich"
  else if (reSearch (savingsKw [rstr "moderate", rstr "average",
        rstr "medium", rstr "fair"]) t).isSome then "moderate"
  else "little"

/-- `classify_savings_level`. -/
def classify_savings_level (text : String) : String :=
  let t := lowerChars text.data
  match extract_account_amount (strLower text) "saving" with
  | some amount =>
    if amount = 0 then "none"
    else if amount < 1000 then "little"
    else if amount < 10000 then "moderate"
    else if amount < 50000 then "quite rich"
    else "rich"
  | none => savingsKeywordClassify t

/-- The explicit-mention branch of `classify_checking_level`. -/
def checkingKeywordClassify (t : List Char) : String :=
  if (reSearch (checkingKw [rstr "none", rstr "no", rstr "zero", rstr "nil",
        seqs [.wordB, .lit '0', .wordB]]) t).isSome then "none"
  else if (reSearch (checkingKw [rstr "little", rstr "small", rstr "minimal",
        rstr "low"]) t).isSome then "little"
  else if (reSearch (checkingKw [rstr "rich", rstr "high", rstr "substantial",
        rstr "significant"]) t).isSome then "rich"
  else if (reSearch (checkingKw [rstr "moderate", rstr "average",
        rstr "medium", rstr "fair"]) t).isSome then "moderate"
  else "little"

/-- `classify_checking_level`. -/
def classify_checking_level (text : String) : String :=
  let t := lowerChars text.data
  match extract_account_amount (strLower text) "checking" with
  | some amount =>
    if amount = 0 then "none"
    else if amount < 500 then "little"
    else if amount < 5000 then "moderate"
    else "rich"
  | none => checkingKeywordClassify t

/-- The four raw-string patterns of `extract_credit_amount`. -/
def creditPatterns : List RE := [
  seqs [.alt (rstr "loan") (rstr "credit"), .star scls,
        ropt (.alt (rstr "amount") (rstr "sum")), .star colonSp,
        ropt currencyRe, .star scls, .group 1 amountRe],
  seqs [.alt (rstr "amount") (rstr "sum"), .star colonSp, ropt currencyRe,
        .star scls, .group 1 amountRe],
  seqs [currencyRe, .star scls, .group 1 amountRe],
  seqs [rstr "principal", .star colonSp, ropt currencyRe, .star scls,
        .group 1 amountRe]]

/-- Loop of `extract_credit_amount`: a matched amount is returned only when
positive; otherwise the loop moves on to the next pattern. -/
def extractCreditLoop (s : List Char) : List RE → Option ℚ
  | [] => none
  | p :: ps =>
    match reSearch p s with
    | some caps =>
      let amount := parseAmount (capOr caps 1)
      if amount > 0 then some amount else extractCreditLoop s ps
    | none => extractCreditLoop s ps

/-- `extract_credit_amount`. -/
def extract_credit_amount (text : String) : Option ℚ :=
  extractCreditLoop (lowerChars text.data) creditPatterns

/-- The five month-unit patterns of `extract_duration_months`. -/
def monthPatterns : List RE := [
  seqs [rstr "duration", .star colonSp, .group 1 (rplus dcls), .star scls,
        rstr "month", ropt (.lit 's')],
  seqs [rstr "tenure", .star colonSp, .group 1 (rplus dcls), .star scls,
        rstr "month", ropt (.lit 's')],
  seqs [rstr "period", .star colonSp, .group 1 (rplus dcls), .star scls,
        rstr "month", ropt (.lit 's')],
  seqs [rstr "term", .star colonSp, .group 1 (rplus dcls), .star scls,
        rstr "month", ropt (.lit 's')],
  seqs [.group 1 (rplus dcls), .star scls, rstr "month", ropt (.lit 's'),
        .star scls, alts [rstr "loan", rstr "tenure", rstr "period",
        rstr "term"]]]

/-- The four year-unit patterns of `extract_duration_months`. -/
def yearPatterns : List RE := [
  seqs [rstr "duration", .star colonSp, .group 1 (rplus dcls), .star scls,
        rstr "year", ropt (.lit 's')],
  seqs [rstr "tenure", .star colonSp, .group 1 (rplus dcls), .star scls,
        rstr "year", ropt (.lit 's')],
  seqs [rstr "period", .star colonSp, .group 1 (rplus dcls), .star scls,
        rstr "year", ropt (.lit 's')],
  seqs [rstr "term", .star colonSp, .group 1 (rplus dcls), .star scls,
        rstr "year", ropt (.lit 's')]]

/-- Month-pattern loop: a match is accepted only for `1 ≤ months ≤ 120`,
otherwise the loop continues. -/
def scanMonthPatterns (s : List Char) : List RE → Option Nat
  | [] => none
  | p :: ps =>
    match reSearch p s with
    | some caps =>
      let months := digitsToNat (capOr caps 1)
      if 1 ≤ months ∧ months ≤ 120 then some months
      else scanMonthPatterns s ps
    | none => scanMonthPatterns s ps

/-- Year-pattern loop: a match is accepted only for `1 ≤ years ≤ 10` and is
converted to months. -/
def scanYearPatterns (s : List Char) : List RE → Option Nat
  | [] => none
  | p :: ps =>
    match reSearch p s with
    | some caps =>
      let years := digitsToNat (capOr caps 1)
      if 1 ≤ years ∧ years ≤ 10 then some (years * 12)
      else scanYearPatterns s ps
    | none => scanYearPatterns s ps

/-- `extract_duration_months`. -/
def extract_duration_months (text : String) : Option Nat :=
  let s := lowerChars text.data
  match scanMonthPatterns s monthPatterns with
  | some m => some m
  | none => scanYearPatterns s yearPatterns

/-- The ordered purpose keyword table of `classify_loan_purpose`
(Python dict iteration follows insertion order). -/
def purposeTable : List (String × List String) := [
  ("business", ["business", "enterprise", "startup", "commercial", "shop",
    "office"]),
  ("car", ["car", "vehicle", "automobile", "auto", "bike", "motorcycle"]),
  ("domestic appliances", ["appliance", "refrigerator", "fridge",
    "washing machine", "microwave", "ac", "air conditioner"]),
  ("education", ["education", "study", "course", "tuition", "school",
    "college", "university", "training"]),
  ("furniture/equipment", ["furniture", "equipment", "furnishing", "sofa",
    "bed", "table"]),
  ("radio/TV", ["radio", "tv", "television", "electronics", "audio",
    "video"]),
  ("repairs", ["repair", "renovation", "maintenance", "fix", "remodel"])]

/-- First purpose whose keyword list has a hit inside `hay`. -/
def findPurposeIn (hay : List Char) : List (String × List String) → Option String
  | [] => none
  | (purpose, kws) :: rest =>
    if kws.any (fun k => containsSub k.data hay) then some purpose
    else findPurposeIn hay rest

/-- Pattern `purpose[:\s]*([a-zA-Z\s/]+)`. -/
def purposeFieldRe : RE :=
  seqs [rstr "purpose", .star colonSp,
        .group 1 (rplus (.cls (fun c => c.isAlpha || pySpace c || c == '/')))]

/-- `classify_loan_purpose`: the explicit `purpose:` capture is scanned for
keywords first; failing that the whole text is scanned; final default
`"vacation/others"`. -/
def classify_loan_purpose (text : String) : String :=
  let t := lowerChars text.data
  let wholeText :=
    match findPurposeIn t purposeTable with
    | some p => p
    | none => "vacation/others"
  match reSearch purposeFieldRe t with
  | some caps =>
    match findPurposeIn (stripChars (capOr caps 1)) purposeTable with
    | some p => p
    | none => wholeText
  | none => wholeText

/-- The structured field set returned by `parse_credit_fields` (the keys of
the Python dictionary become fields; a Python `None` is `none`). -/
structure ParsedFields where
  age : Option Nat
  gender : Option String
  job : String
  housing : String
  saving_accounts : String
  checking_account : String
  credit_amount : Option ℚ
  duration : Option Nat
  purpose : String
deriving DecidableEq

/-- `parse_credit_fields`. -/
def parse_credit_fields (nowYear : Nat) (text : String) : ParsedFields where
  age := extract_age nowYear text
  gender := extract_gender text
  job := classify_job_category text
  housing := classify_housing_type text
  saving_accounts := classify_savings_level text
  checking_account := classify_checking_level text
  credit_amount := extract_credit_amount text
  duration := extract_duration_months text
  purpose := classify_loan_purpose text

/-- Python `repr` of a list of strings, as interpolated into the validator's
messages. -/
def pyListRepr (xs : List String) : String :=
  "[" ++ joinSep ", " (xs.map (fun s => "'" ++ s ++ "'")) ++ "]"

def valid_jobs : List String := ["unemployed", "unskilled", "skilled",
  "highly skilled"]

def valid_housing : List String := ["free", "rent", "own"]

def valid_savings : List String := ["none", "little", "moderate",
  "quite rich", "rich"]

def valid_checking : List String := ["none", "little", "moderate", "rich"]

def valid_purposes : List String := ["business", "car", "domestic appliances",
  "education", "furniture/equipment", "radio/TV", "repairs", "vacation/others"]

/-- `validate_parsed_fields`: appends at most one message per field, in
source order, and reports validity as emptiness of the error list. -/
def validate_parsed_fields (fields : ParsedFields) : Bool × List String :=
  let errors : List String := []
  let errors := match fields.age with
    | none => errors ++ ["Age not found in document"]
    | some a =>
      if ¬(18 ≤ a ∧ a ≤ 100) then
        errors ++ ["Age " ++ toString a ++ " out of valid range (18-100)"]
      else errors
  let errors :=
    if ¬(fields.gender = some "male" ∨ fields.gender = some "female") then
      errors ++ ["Gender must be 'male' or 'female'"]
    else errors
  let errors :=
    if ¬(fields.job ∈ valid_jobs) then
      errors ++ ["Job '" ++ fields.job ++ "' must be one of " ++
        pyListRepr valid_jobs]
    else errors
  let errors :=
    if ¬(fields.housing ∈ valid_housing) then
      errors ++ ["Housing '" ++ fields.housing ++ "' must be one of " ++
        pyListRepr valid_housing]
    else errors
  let errors :=
    if ¬(fields.saving_accounts ∈ valid_savings) then
      errors ++ ["Saving accounts must be one of " ++ pyListRepr valid_savings]
    else errors
  let errors :=
    if ¬(fields.checking_account ∈ valid_checking) then
      errors ++ ["Checking account must be one of " ++
        pyListRepr valid_checking]
    else errors
  let errors := match fields.credit_amount with
    | none => errors ++ ["Credit amount not found in document"]
    | some q =>
      if q ≤ 0 then errors ++ ["Credit amount must be positive"] else errors
  let errors := match fields.duration with
    | none => errors ++ ["Loan duration not found in document"]
    | some d =>
      if d ≤ 0 then errors ++ ["Duration must be positive (in months)"]
      else errors
  let errors :=
    if ¬(fields.purpose ∈ valid_purposes) then
      errors ++ ["Purpose must be one of " ++ pyListRepr valid_purposes]
    else errors
  (errors.isEmpty, errors)

/-!
Model of `src/utils/analysis.py` and `src/utils/extraction.py`.

The remote ML service, the blob store and the PDF reader are collaborators;
they enter the model as function parameters.  `mlApi endpoint payload` models
`requests.post(...)` followed by `raise_for_status` and `.json()`: a raised
`Timeout`/`ConnectionError`/`HTTPError`/other exception becomes `.error msg`
(`call_ml` re-wraps the message, which no caller inspects).  `extractPdf
storage_path` models downloading the document and running `pdfplumber`
page-by-page: `.error` is a failed download or unreadable PDF, `.ok pages`
the per-page `extract_text()` results (`none` when a page has no text).
Database tables are in-memory lists; inserts and updates always succeed,
matching the runs the claims quantify over.
-/

/-- JSON-like values: the dictionaries exchanged with the ML service and
stored in the `analyses` table.  Numbers are rationals (the literals the
code produces are exact). -/
inductive Json where
  | null
  | boolv (b : Bool)
  | num (q : ℚ)
  | str (s : String)
  | arr (xs : List Json)
  | obj (kvs : List (String × Json))

/-- Python `dict.get(k)` (also used to model `k in d` via `isSome`). -/
def Json.get (j : Json) (k : String) : Option Json :=
  match j with
  | .obj kvs => (kvs.find? (fun p => p.1 == k)).map (fun p => p.2)
  | _ => none

/-- Python truthiness of a value, for `if risk_result["heatmap_base64"]:`. -/
def Json.truthy : Json → Bool
  | .null => false
  | .boolv b => b
  | .num q => decide (q ≠ 0)
  | .str s => decide (s ≠ "")
  | .arr xs => !xs.isEmpty
  | .obj kvs => !kvs.isEmpty

/-- A row of the `documents` table (the fields the pipeline touches). -/
structure DocRow where
  id : String
  status : String
  storage_path : String

/-- A row of the `analyses` table. -/
structure AnalysisRow where
  document_id : String
  user_id : String
  risk : Json
  compliance : Json
  crossverify : Json

/-- A row of the `extracted_texts` table. -/
structure TextRow where
  document_id : String
  user_id : String
  page_number : Nat
  text : String

/-- A row of the `heatmaps` table. -/
structure HeatmapRow where
  analysis_id : Nat
  user_id : String
  heatmap_path : String
  caption : String

/-- The Result Store: the four tables the pipeline reads and writes. -/
structure DB where
  documents : List DocRow
  analyses : List AnalysisRow
  extracted_texts : List TextRow
  heatmaps : List HeatmapRow

/-- `supabase.table("documents").update({"status": st}).eq("id", id)`. -/
def updateDocStatus (db : DB) (id st : String) : DB :=
  { db with documents := (db.documents.map
      (fun d => if d.id == id then { d with status := st } else d)) }

/-- Insert into `analyses`; the returned id models the row id the database
generates and the code reads back. -/
def insertAnalysis (db : DB) (row : AnalysisRow) : Nat × DB :=
  (db.analyses.length, { db with analyses := db.analyses ++ [row] })

/-- The collaborator boundary of `call_ml`. -/
abbrev MlApi := String → Json → Except String Json

/-- The collaborator boundary of download + `pdfplumber`. -/
abbrev PdfSource := String → Except String (List (Option String))

/-- `call_risk_prediction`: any exception from the `predict` endpoint is
converted into the mock `status: "unavailable"` payload. -/
def call_risk_prediction (mlApi : MlApi) (parsed_fields : Json) : Json :=
  match mlApi "predict" parsed_fields with
  | .ok r => r
  | .error e => .obj [("prediction", .null), ("risk_score", .null),
      ("error", .str e), ("status", .str "unavailable")]

/-- `call_compliance_check`: any exception from the `compliance` endpoint is
converted into the placeholder payload. -/
def call_compliance_check (mlApi : MlApi) (parsed_fields : Json) : Json :=
  match mlApi "compliance" parsed_fields with
  | .ok r => r
  | .error _ => .obj [("compliance_score", .num 1), ("violations", .arr []),
      ("checks_performed", .arr []), ("status", .str "not_available"),
      ("message", .str "Compliance endpoint not yet implemented by ML team")]

/-- The payload of `call_cross_verification`:
`{**parsed_fields, "document_ids": document_ids or []}`. -/
def crossverifyPayload (parsed_fields : Json) (document_ids : List String) : Json :=
  match parsed_fields with
  | .obj kvs => .obj (kvs ++ [("document_ids", .arr (document_ids.map .str))])
  | j => j

/-- `call_cross_verification`: any exception from the `crossverify` endpoint
is converted into the placeholder payload. -/
def call_cross_verification (mlApi : MlApi) (parsed_fields : Json)
    (document_ids : List String) : Json :=
  match mlApi "crossverify" (crossverifyPayload parsed_fields document_ids) with
  | .ok r => r
  | .error _ => .obj [("overall_score", .num 1), ("matches", .obj []),
      ("discrepancies", .arr []), ("status", .str "not_available"),
      ("message", .str "Cross-verification endpoint not yet implemented by ML team")]

/-- Page texts as stored and returned by `extract_and_store_texts`: pages are
numbered from 1, a page without text becomes `""`, every page is stripped. -/
def numberPages (n : Nat) : List (Option String) → List (Nat × String)
  | [] => []
  | p :: ps => (n, strStrip (p.getD "")) :: numberPages (n + 1) ps

def textsOf (pages : List (Option String)) : List (Nat × String) :=
  numberPages 1 pages

/-- `extract_and_store_texts`: on a successful download/read, one
`extracted_texts` row per page is inserted and the page list returned. -/
def extract_and_store_texts (extractPdf : PdfSource)
    (document_id storage_path user_id : String) (db : DB) :
    Except String (List (Nat × String)) × DB :=
  match extractPdf storage_path with
  | .error e => (.error e, db)
  | .ok pages =>
    let texts := textsOf pages
    (.ok texts, { db with extracted_texts := (db.extracted_texts ++
        texts.map (fun t => ⟨document_id, user_id, t.1, t.2⟩)) })

/-- `"\n\n".join([page[1] for page in texts if page[1]])`. -/
def joinPages (texts : List (Nat × String)) : String :=
  joinSep "\n\n" ((texts.filter (fun p => p.2 != "")).map (fun p => p.2))

def fullTextOf (pages : List (Option String)) : String :=
  joinPages (textsOf pages)

/-- The parsed-field dictionary as sent to the ML endpoints and stored in the
record; when validation failed the code adds a `_validation_errors` key. -/
def parsedPayload (f : ParsedFields) (is_valid : Bool) (errs : List String) : Json :=
  .obj ([
    ("age", match f.age with | some a => .num a | none => .null),
    ("gender", match f.gender with | some g => .str g | none => .null),
    ("job", .str f.job),
    ("housing", .str f.housing),
    ("saving_accounts", .str f.saving_accounts),
    ("checking_account", .str f.checking_account),
    ("credit_amount", match f.credit_amount with | some q => .num q | none => .null),
    ("duration", match f.duration with | some d => .num d | none => .null),
    ("purpose", .str f.purpose)] ++
    (if is_valid then [] else
      [("_validation_errors", .arr (errs.map .str))]))

/-- The `formatted_risk` dictionary of pipeline step 4. -/
def formatRisk (risk_result : Json) (payload : Json) (is_valid : Bool)
    (errs : List String) : Json :=
  .obj [
    ("prediction", (risk_result.get "prediction").getD .null),
    ("risk_score", (risk_result.get "risk_score").getD .null),
    ("probability", (risk_result.get "probability").getD .null),
    ("risk_class", (risk_result.get "risk_class").getD .null),
    ("risk_factors", (risk_result.get "risk_factors").getD (.arr [])),
    ("confidence", (risk_result.get "confidence").getD .null),
    ("parsed_fields", payload),
    ("validation_errors", if is_valid then .arr [] else .arr (errs.map .str)),
    ("raw_ml_response", risk_result)]

/-- Pipeline step 8: decode and store the optional heatmap.  The blob upload
and the decode are modeled as succeeding; their failure is caught by the
source and leaves the state unchanged except for the log. -/
def processHeatmap (risk_result : Json) (analysis_id : Nat)
    (document_id user_id : String) (db : DB) : Option String × DB :=
  match risk_result.get "heatmap_base64" with
  | some v =>
    if v.truthy then
      let p := user_id ++ "/heatmaps/" ++ document_id ++ "_risk.png"
      (some p, { db with heatmaps := (db.heatmaps ++
          [⟨analysis_id, user_id, p, "Credit Risk Analysis Heatmap"⟩]) })
    else (none, db)
  | none => (none, db)

/-- The success value returned by `run_full_analysis_background`. -/
structure RunOk where
  analysis_id : Nat
  risk : Json
  compliance : Json
  crossverify : Json
  parsed_fields : Json
  heatmap_path : Option String

/-- The `except` branch of `run_full_analysis_background`: mark the document
failed, store an error-only analysis record, re-raise. -/
def failRun (document_id user_id e : String) (db : DB) :
    Except String RunOk × DB :=
  let db := updateDocStatus db document_id "failed"
  let db := { db with analyses := (db.analyses ++
      [⟨document_id, user_id,
        .obj [("error", .str e), ("status", .str "failed")], .obj [], .obj []⟩]) }
  (.error ("Analysis pipeline failed: " ++ e), db)

/-- Pipeline steps 2 through 9, once a non-empty full text is in hand. -/
def runAfterText (mlApi : MlApi) (nowYear : Nat)
    (document_id user_id : String) (full_text : String) (db : DB) :
    Except String RunOk × DB :=
  let parsed := parse_credit_fields nowYear full_text
  let v := validate_parsed_fields parsed
  let payload := parsedPayload parsed v.1 v.2
  let risk_result := call_risk_prediction mlApi payload
  let formatted_risk := formatRisk risk_result payload v.1 v.2
  let compliance_result := call_compliance_check mlApi payload
  let crossverify_result := call_cross_verification mlApi payload [document_id]
  let ins := insertAnalysis db
      ⟨document_id, user_id, formatted_risk, compliance_result, crossverify_result⟩
  let hm := processHeatmap risk_result ins.1 document_id user_id ins.2
  let db := updateDocStatus hm.2 document_id "done"
  (.ok ⟨ins.1, formatted_risk, compliance_result, crossverify_result,
        payload, hm.1⟩, db)

/-- `run_full_analysis_background`. -/
def run_full_analysis_background (mlApi : MlApi) (extractPdf : PdfSource)
    (nowYear : Nat) (document_id user_id storage_path : String) (db : DB) :
    Except String RunOk × DB :=
  match extract_and_store_texts extractPdf document_id storage_path user_id db with
  | (.error e, db1) => failRun document_id user_id e db1
  | (.ok texts, db1) =>
    if texts = [] then
      failRun document_id user_id "No text extracted from document" db1
    else if strStrip (joinPages texts) = "" then
      failRun document_id user_id
        "Document appears to be empty or contains only images" db1
    else runAfterText mlApi nowYear document_id user_id (joinPages texts) db1

/-- `supabase.table("analyses").delete().eq("document_id", id)`. -/
def deleteDocAnalyses (db : DB) (id : String) : DB :=
  { db with analyses :=
      (db.analyses.filter (fun a => !(a.document_id == id))) }

/-- `supabase.table("extracted_texts").delete().eq("document_id", id)`. -/
def deleteDocTexts (db : DB) (id : String) : DB :=
  { db with extracted_texts :=
      (db.extracted_texts.filter (fun t => !(t.document_id == id))) }

/-- `rerun_analysis`: reset status to processing, delete the document's
analyses and extracted texts, run the full pipeline again. -/
def rerun_analysis (mlApi : MlApi) (extractPdf : PdfSource) (nowYear : Nat)
    (document_id user_id : String) (db : DB) : Except String RunOk × DB :=
  match db.documents.find? (fun d => d.id == document_id) with
  | none => (.error "Document not found", db)
  | some doc =>
    let db := updateDocStatus db document_id "processing"
    let db := deleteDocAnalyses db document_id
    let db := deleteDocTexts db document_id
    run_full_analysis_background mlApi extractPdf nowYear document_id user_id
      doc.storage_path db

/-- Status of a document as read back from the store. -/
def docStatusOf (db : DB) (id : String) : Option String :=
  (db.documents.find? (fun d => d.id == id)).map (fun d => d.status)

/-!
Spec-side definitions, for the refinement-style claims.  These follow the
wording of the specification and are compared against the source-derived
functions above.
-/

/-- The savings thresholds as the spec words them: `0→none`, `<1000→little`,
`<10000→moderate`, `<50000→"quite rich"`, else `rich`. -/
def specSavingsBucket (n : ℚ) : String :=
  if n = 0 then "none"
  else if n < 1000 then "little"
  else if n < 10000 then "moderate"
  else if n < 50000 then "quite rich"
  else "rich"

/-- The checking thresholds as the spec words them: `0→none`, `<500→little`,
`<5000→moderate`, else `rich`. -/
def specCheckingBucket (n : ℚ) : String :=
  if n = 0 then "none"
  else if n < 500 then "little"
  else if n < 5000 then "moderate"
  else "rich"

/-- Validator messages contributed by the age field alone. -/
def vAgeErrors : Option Nat → List String
  | none => ["Age not found in document"]
  | some a =>
    if ¬(18 ≤ a ∧ a ≤ 100) then
      ["Age " ++ toString a ++ " out of valid range (18-100)"]
    else []

/-- Validator messages contributed by the gender field alone. -/
def vGenderErrors (g : Option String) : List String :=
  if ¬(g = some "male" ∨ g = some "female") then
    ["Gender must be 'male' or 'female'"]
  else []

/-- Validator messages contributed by the job field alone. -/
def vJobErrors (j : String) : List String :=
  if ¬(j ∈ valid_jobs) then
    ["Job '" ++ j ++ "' must be one of " ++ pyListRepr valid_jobs]
  else []

/-- Validator messages contributed by the housing field alone. -/
def vHousingErrors (h : String) : List String :=
  if ¬(h ∈ valid_housing) then
    ["Housing '" ++ h ++ "' must be one of " ++ pyListRepr valid_housing]
  else []

/-- Validator messages contributed by the savings field alone. -/
def vSavingErrors (s : String) : List String :=
  if ¬(s ∈ valid_savings) then
    ["Saving accounts must be one of " ++ pyListRepr valid_savings]
  else []

/-- Validator messages contributed by the checking field alone. -/
def vCheckingErrors (s : String) : List String :=
  if ¬(s ∈ valid_checking) then
    ["Checking account must be one of " ++ pyListRepr valid_checking]
  else []

/-- Validator messages contributed by the credit-amount field alone. -/
def vCreditErrors : Option ℚ → List String
  | none => ["Credit amount not found in document"]
  | some q => if q ≤ 0 then ["Credit amount must be positive"] else []

/-- Validator messages contributed by the duration field alone. -/
def vDurationErrors : Option Nat → List String
  | none => ["Loan duration not found in document"]
  | some d => if d ≤ 0 then ["Duration must be positive (in months)"] else []

/-- Validator messages contributed by the purpose field alone. -/
def vPurposeErrors (p : String) : List String :=
  if ¬(p ∈ valid_purposes) then
    ["Purpose must be one of " ++ pyListRepr valid_purposes]
  else []

/-- The sample document text of the spec's end-to-end property. -/
def sampleText : String :=
  "Age: 45 years. Occupation: unemployed. Housing: own. Loan amount: Rs. 50000. Duration: 24 months. Purpose: education."

/-- The parsed-field payload a run with full text `full_text` sends to the
scoring capabilities (steps 2 and 3 of the pipeline, composed). -/
def runPayload (nowYear : Nat) (full_text : String) : Json :=
  parsedPayload (parse_credit_fields nowYear full_text)
    (validate_parsed_fields (parse_credit_fields nowYear full_text)).1
    (validate_parsed_fields (parse_credit_fields nowYear full_text)).2

/-- The analysis row a successful run stores for `full_text`. -/
def runAnalysisRow (mlApi : MlApi) (nowYear : Nat)
    (document_id user_id full_text : String) : AnalysisRow :=
  ⟨document_id, user_id,
    formatRisk (call_risk_prediction mlApi (runPayload nowYear full_text))
      (runPayload nowYear full_text)
      (validate_parsed_fields (parse_credit_fields nowYear full_text)).1
      (validate_parsed_fields (parse_credit_fields nowYear full_text)).2,
    call_compliance_check mlApi (runPayload nowYear full_text),
    call_cross_verification mlApi (runPayload nowYear full_text) [document_id]⟩

/-- The error-only analysis row stored by the `except` branch. -/
def failAnalysisRow (document_id user_id e : String) : AnalysisRow :=
  ⟨document_id, user_id,
    .obj [("error", .str e), ("status", .str "failed")], .obj [], .obj []⟩

end Iris

namespace Iris

set_option maxRecDepth 40000 in
set_option maxHeartbeats 1000000 in
/-- C3: on the spec's sample text the parser returns age 45, job
"unemployed", housing "own", credit amount 50000, duration 24 months,
purpose "education", absent gender, and "little" for both accounts (for any
current year: the text has no date-of-birth, so the result does not depend
on it). -/
theorem parse_sample_text (nowYear : Nat) :
    parse_credit_fields nowYear sampleText =
      { age := some 45, gender := none, job := "unemployed",
        housing := "own", saving_accounts := "little",
        checking_account := "little", credit_amount := some 50000,
        duration := some 24, purpose := "education" } := by
  with_unfolding_all rfl

/-- C7: the savings and checking classifiers first try numeric balance
extraction and bucket an extracted number by the spec's fixed thresholds;
with no number they fall back to the ordered keyword rules (whose final
default is "little"). -/
theorem savings_checking_classifier_shape (text : String) :
    (classify_savings_level text =
      match extract_account_amount (strLower text) "saving" with
      | some n => specSavingsBucket n
      | none => savingsKeywordClassify (lowerChars text.data)) ∧
    (classify_checking_level text =
      match extract_account_amount (strLower text) "checking" with
      | some n => specCheckingBucket n
      | none => checkingKeywordClassify (lowerChars text.data)) := by
  constructor
  · unfold classify_savings_level specSavingsBucket
    cases extract_account_amount (strLower text) "saving" <;> rfl
  · unfold classify_checking_level specCheckingBucket
    cases extract_account_amount (strLower text) "checking" <;> rfl

/-!
Range and membership lemmas for the pattern-scanning loops.
-/

theorem extractAgeLoop_range {nowYear : Nat} {s : List Char} {ps : List RE}
    {a : Nat} (h : extractAgeLoop nowYear s ps = some a) :
    18 ≤ a ∧ a ≤ 100 := by
  induction ps with
  | nil => simp [extractAgeLoop] at h
  | cons p ps ih =>
    simp only [extractAgeLoop] at h
    rcases hre : reSearch p s with _ | caps <;> simp only [hre] at h
    · exact ih h
    · split_ifs at h with h1 h2 h3 h4
      · simp only [Option.some.injEq] at h
        omega
      · exact ih h
      · exact ih h
      · simp only [Option.some.injEq] at h
        omega
      · exact ih h

theorem scanMonthPatterns_range {s : List Char} {ps : List RE} {m : Nat}
    (h : scanMonthPatterns s ps = some m) : 1 ≤ m ∧ m ≤ 120 := by
  induction ps with
  | nil => simp [scanMonthPatterns] at h
  | cons p ps ih =>
    simp only [scanMonthPatterns] at h
    rcases hre : reSearch p s with _ | caps <;> simp only [hre] at h
    · exact ih h
    · split_ifs at h with h1
      · simp only [Option.some.injEq] at h
        omega
      · exact ih h

theorem scanYearPatterns_shape {s : List Char} {ps : List RE} {m : Nat}
    (h : scanYearPatterns s ps = some m) :
    ∃ y, 1 ≤ y ∧ y ≤ 10 ∧ m = y * 12 := by
  induction ps with
  | nil => simp [scanYearPatterns] at h
  | cons p ps ih =>
    simp only [scanYearPatterns] at h
    rcases hre : reSearch p s with _ | caps <;> simp only [hre] at h
    · exact ih h
    · split_ifs at h with h1
      · simp only [Option.some.injEq] at h
        exact ⟨digitsToNat (capOr caps 1), h1.1, h1.2, h.symm⟩
      · exact ih h

theorem extractCreditLoop_pos {s : List Char} {ps : List RE} {q : ℚ}
    (h : extractCreditLoop s ps = some q) : 0 < q := by
  induction ps with
  | nil => simp [extractCreditLoop] at h
  | cons p ps ih =>
    simp only [extractCreditLoop] at h
    rcases hre : reSearch p s with _ | caps <;> simp only [hre] at h
    · exact ih h
    · split_ifs at h with h1
      · simp only [Option.some.injEq] at h
        rw [← h]
        exact h1
      · exact ih h

theorem findPurposeIn_mem {hay : List Char} {l : List (String × List String)}
    {p : String} (h : findPurposeIn hay l = some p) :
    p ∈ l.map Prod.fst := by
  induction l with
  | nil => simp [findPurposeIn] at h
  | cons kv l ih =>
    simp only [findPurposeIn] at h
    split_ifs at h with h1
    · simp only [Option.some.injEq] at h
      simp [← h]
    · simp [ih h]

theorem classify_loan_purpose_mem (text : String) :
    classify_loan_purpose text ∈ valid_purposes := by
  have sub : ∀ q, q ∈ purposeTable.map Prod.fst → q ∈ valid_purposes := by
    intro q hq
    have table : purposeTable.map Prod.fst = ["business", "car",
        "domestic appliances", "education", "furniture/equipment", "radio/TV",
        "repairs"] := rfl
    rw [table] at hq
    simp only [List.mem_cons, List.not_mem_nil, or_false] at hq
    rcases hq with rfl | rfl | rfl | rfl | rfl | rfl | rfl <;>
      simp [valid_purposes]
  simp only [classify_loan_purpose]
  split
  · split
    · rename_i h
      exact sub _ (findPurposeIn_mem h)
    · split
      · rename_i h
        exact sub _ (findPurposeIn_mem h)
      · simp [valid_purposes]
  · split
    · rename_i h
      exact sub _ (findPurposeIn_mem h)
    · simp [valid_purposes]

/-- C2: the parser is total by construction; the enumerated fields always
land in their enumerations, and the optional fields are well-typed when
present, with any extracted age in `[18, 100]`, any credit amount positive,
and any duration in `[1, 120]`. -/
theorem parse_credit_fields_sound (nowYear : Nat) (text : String) :
    (parse_credit_fields nowYear text).job ∈ valid_jobs ∧
    (parse_credit_fields nowYear text).housing ∈ valid_housing ∧
    (parse_credit_fields nowYear text).saving_accounts ∈ valid_savings ∧
    (parse_credit_fields nowYear text).checking_account ∈ valid_checking ∧
    (parse_credit_fields nowYear text).purpose ∈ valid_purposes ∧
    (∀ a, (parse_credit_fields nowYear text).age = some a →
      18 ≤ a ∧ a ≤ 100) ∧
    (∀ g, (parse_credit_fields nowYear text).gender = some g →
      g = "male" ∨ g = "female") ∧
    (∀ q, (parse_credit_fields nowYear text).credit_amount = some q →
      0 < q) ∧
    (∀ d, (parse_credit_fields nowYear text).duration = some d →
      1 ≤ d ∧ d ≤ 120) := by
  refine ⟨?_, ?_, ?_, ?_, ?_, ?_, ?_, ?_, ?_⟩
  · show classify_job_category text ∈ valid_jobs
    simp only [classify_job_category]
    split_ifs <;> simp [valid_jobs]
  · show classify_housing_type text ∈ valid_housing
    simp only [classify_housing_type]
    split_ifs <;> simp [valid_housing]
  · show classify_savings_level text ∈ valid_savings
    simp only [classify_savings_level]
    split
    · split_ifs <;> simp [valid_savings]
    · simp only [savingsKeywordClassify]
      split_ifs <;> simp [valid_savings]
  · show classify_checking_level text ∈ valid_checking
    simp only [classify_checking_level]
    split
    · split_ifs <;> simp [valid_checking]
    · simp only [checkingKeywordClassify]
      split_ifs <;> simp [valid_checking]
  · exact classify_loan_purpose_mem text
  · intro a h
    exact extractAgeLoop_range h
  · intro g h
    show g = "male" ∨ g = "female"
    replace h : extract_gender text = some g := h
    simp only [extract_gender] at h
    split_ifs at h
    · exact Or.inl (Option.some_injective _ h).symm
    · exact Or.inr (Option.some_injective _ h).symm
    · exact Or.inl (Option.some_injective _ h).symm
    · exact Or.inr (Option.some_injective _ h).symm
  · intro q h
    exact extractCreditLoop_pos h
  · intro d h
    show 1 ≤ d ∧ d ≤ 120
    replace h : extract_duration_months text = some d := h
    rcases hm : scanMonthPatterns (lowerChars text.data) monthPatterns
        with _ | m
    · simp only [extract_duration_months, hm] at h
      rcases scanYearPatterns_shape h with ⟨y, h1, h2, h3⟩
      omega
    · simp only [extract_duration_months, hm, Option.some.injEq] at h
      rw [← h]
      exact scanMonthPatterns_range hm

/-- C8: `extract_duration_months` prefers the month-unit patterns, falling
back to year-unit patterns converted by twelve, and every extracted value
lies in `[1, 120]` (year matches are accepted only for `1 ≤ years ≤ 10`
before conversion). -/
theorem extract_duration_months_shape (text : String) :
    (∀ m, scanMonthPatterns (lowerChars text.data) monthPatterns = some m →
      extract_duration_months text = some m) ∧
    (scanMonthPatterns (lowerChars text.data) monthPatterns = none →
      extract_duration_months text =
        scanYearPatterns (lowerChars text.data) yearPatterns) ∧
    (∀ m, extract_duration_months text = some m →
      (1 ≤ m ∧ m ≤ 120) ∧
      (scanMonthPatterns (lowerChars text.data) monthPatterns = none →
        ∃ y, 1 ≤ y ∧ y ≤ 10 ∧ m = y * 12)) := by
  refine ⟨?_, ?_, ?_⟩
  · intro m hm
    simp only [extract_duration_months, hm]
  · intro hm
    simp only [extract_duration_months, hm]
  · intro m h
    constructor
    · rcases hm : scanMonthPatterns (lowerChars text.data) monthPatterns
          with _ | m0
      · simp only [extract_duration_months, hm] at h
        rcases scanYearPatterns_shape h with ⟨y, h1, h2, h3⟩
        omega
      · simp only [extract_duration_months, hm, Option.some.injEq] at h
        rw [← h]
        exact scanMonthPatterns_range hm
    · intro hm
      simp only [extract_duration_months, hm] at h
      exact scanYearPatterns_shape h

theorem ite_append_err {c : Prop} [Decidable c] (l m : List String) :
    (if c then l ++ m else l) = l ++ (if c then m else []) := by
  split <;> simp

theorem validate_decomp (f : ParsedFields) :
    (validate_parsed_fields f).2 =
      vAgeErrors f.age ++ vGenderErrors f.gender ++ vJobErrors f.job ++
      vHousingErrors f.housing ++ vSavingErrors f.saving_accounts ++
      vCheckingErrors f.checking_account ++ vCreditErrors f.credit_amount ++
      vDurationErrors f.duration ++ vPurposeErrors f.purpose := by
  rcases f with ⟨age, gender, job, housing, sav, chk, cred, dur, purp⟩
  simp only [validate_parsed_fields, vAgeErrors, vGenderErrors, vJobErrors,
    vHousingErrors, vSavingErrors, vCheckingErrors, vCreditErrors,
    vDurationErrors, vPurposeErrors]
  cases age <;> cases cred <;> cases dur <;>
    simp only [ite_append_err] <;>
    simp only [List.append_assoc, List.nil_append, List.append_nil]

theorem validate_fst (f : ParsedFields) :
    (validate_parsed_fields f).1 = (validate_parsed_fields f).2.isEmpty := rfl

/-- C6: the validator checks each field independently, contributing at most
one message per field, concatenated in field-declaration order, and reports
validity exactly when the message list is empty. -/
theorem validate_parsed_fields_shape (f : ParsedFields) :
    (validate_parsed_fields f).2 =
      vAgeErrors f.age ++ vGenderErrors f.gender ++ vJobErrors f.job ++
      vHousingErrors f.housing ++ vSavingErrors f.saving_accounts ++
      vCheckingErrors f.checking_account ++ vCreditErrors f.credit_amount ++
      vDurationErrors f.duration ++ vPurposeErrors f.purpose ∧
    (vAgeErrors f.age).length ≤ 1 ∧
    (vGenderErrors f.gender).length ≤ 1 ∧
    (vJobErrors f.job).length ≤ 1 ∧
    (vHousingErrors f.housing).length ≤ 1 ∧
    (vSavingErrors f.saving_accounts).length ≤ 1 ∧
    (vCheckingErrors f.checking_account).length ≤ 1 ∧
    (vCreditErrors f.credit_amount).length ≤ 1 ∧
    (vDurationErrors f.duration).length ≤ 1 ∧
    (vPurposeErrors f.purpose).length ≤ 1 ∧
    ((validate_parsed_fields f).1 = true ↔ (validate_parsed_fields f).2 = []) := by
  refine ⟨validate_decomp f, ?_, ?_, ?_, ?_, ?_, ?_, ?_, ?_, ?_, ?_⟩
  · cases f.age <;> simp only [vAgeErrors] <;> (try split_ifs) <;> simp
  · simp only [vGenderErrors]
    split_ifs <;> simp
  · simp only [vJobErrors]
    split_ifs <;> simp
  · simp only [vHousingErrors]
    split_ifs <;> simp
  · simp only [vSavingErrors]
    split_ifs <;> simp
  · simp only [vCheckingErrors]
    split_ifs <;> simp
  · cases f.credit_amount <;> simp only [vCreditErrors] <;>
      (try split_ifs) <;> simp
  · cases f.duration <;> simp only [vDurationErrors] <;> (try split_ifs) <;>
      simp
  · simp only [vPurposeErrors]
    split_ifs <;> simp
  · rw [validate_fst]
    generalize (validate_parsed_fields f).2 = l
    cases l <;> simp

/-!
Lemmas about the orchestrator's state transitions.
-/

theorem updateDocStatus_analyses (db : DB) (id st : String) :
    (updateDocStatus db id st).analyses = db.analyses := rfl

theorem updateDocStatus_texts (db : DB) (id st : String) :
    (updateDocStatus db id st).extracted_texts = db.extracted_texts := rfl

theorem processHeatmap_analyses (r : Json) (a : Nat) (d u : String) (db : DB) :
    (processHeatmap r a d u db).2.analyses = db.analyses := by
  simp only [processHeatmap]
  split
  · split <;> rfl
  · rfl

theorem processHeatmap_texts (r : Json) (a : Nat) (d u : String) (db : DB) :
    (processHeatmap r a d u db).2.extracted_texts = db.extracted_texts := by
  simp only [processHeatmap]
  split
  · split <;> rfl
  · rfl

theorem processHeatmap_documents (r : Json) (a : Nat) (d u : String) (db : DB) :
    (processHeatmap r a d u db).2.documents = db.documents := by
  simp only [processHeatmap]
  split
  · split <;> rfl
  · rfl

theorem runAfterText_isOk (m : MlApi) (y : Nat) (d u ft : String) (db : DB) :
    (runAfterText m y d u ft db).1.isOk = true := rfl

theorem runAfterText_analyses (m : MlApi) (y : Nat) (d u ft : String)
    (db : DB) :
    (runAfterText m y d u ft db).2.analyses =
      db.analyses ++ [runAnalysisRow m y d u ft] := by
  simp only [runAfterText, updateDocStatus_analyses, processHeatmap_analyses,
    insertAnalysis, runAnalysisRow, runPayload]

theorem runAfterText_texts (m : MlApi) (y : Nat) (d u ft : String) (db : DB) :
    (runAfterText m y d u ft db).2.extracted_texts = db.extracted_texts := by
  simp only [runAfterText, updateDocStatus_texts, processHeatmap_texts,
    insertAnalysis]

theorem runAfterText_documents (m : MlApi) (y : Nat) (d u ft : String)
    (db : DB) :
    (runAfterText m y d u ft db).2.documents =
      (updateDocStatus db d "done").documents := by
  simp only [runAfterText, updateDocStatus, processHeatmap_documents,
    insertAnalysis]

theorem failRun_fst (d u e : String) (db : DB) :
    (failRun d u e db).1 = .error ("Analysis pipeline failed: " ++ e) := rfl

theorem failRun_analyses (d u e : String) (db : DB) :
    (failRun d u e db).2.analyses =
      db.analyses ++ [failAnalysisRow d u e] := rfl

theorem failRun_texts (d u e : String) (db : DB) :
    (failRun d u e db).2.extracted_texts = db.extracted_texts := rfl

theorem failRun_documents (d u e : String) (db : DB) :
    (failRun d u e db).2.documents =
      (updateDocStatus db d "failed").documents := rfl

theorem find_map_update (l : List DocRow) (id st : String) :
    (l.map (fun r => if r.id == id then { r with status := st } else r)).find?
        (fun r => r.id == id) =
      (l.find? (fun r => r.id == id)).map
        (fun r => { r with status := st }) := by
  induction l with
  | nil => rfl
  | cons a l ih =>
    simp only [List.map_cons]
    by_cases h : (a.id == id) = true
    · rw [if_pos h]
      simp only [List.find?, h]
      rfl
    · rw [if_neg h]
      have h2 : (a.id == id) = false := by simpa using h
      simp only [List.find?, h2]
      exact ih

theorem docStatusOf_update (db : DB) (id st : String) :
    docStatusOf (updateDocStatus db id st) id =
      (docStatusOf db id).map (fun _ => st) := by
  simp only [docStatusOf, updateDocStatus, find_map_update]
  cases db.documents.find? (fun r => r.id == id) <;> rfl

theorem run_success_eq (m : MlApi) (e : PdfSource) (y : Nat)
    (d u sp : String) (db : DB) (pages : List (Option String))
    (hpdf : e sp = .ok pages)
    (hne : ¬ textsOf pages = [])
    (hft : ¬ strStrip (joinPages (textsOf pages)) = "") :
    run_full_analysis_background m e y d u sp db =
      runAfterText m y d u (joinPages (textsOf pages))
        { db with extracted_texts := (db.extracted_texts ++
            (textsOf pages).map (fun t => ⟨d, u, t.1, t.2⟩)) } := by
  simp only [run_full_analysis_background, extract_and_store_texts, hpdf,
    hne, hft, if_false]

theorem run_fail_eq (m : MlApi) (e : PdfSource) (y : Nat)
    (d u sp : String) (db : DB) (pages : List (Option String))
    (hpdf : e sp = .ok pages)
    (hempty : textsOf pages = [] ∨ strStrip (joinPages (textsOf pages)) = "") :
    ∃ msg,
      run_full_analysis_background m e y d u sp db =
        failRun d u msg
          { db with extracted_texts := (db.extracted_texts ++
              (textsOf pages).map (fun t => ⟨d, u, t.1, t.2⟩)) } := by
  by_cases hne : textsOf pages = []
  · refine ⟨"No text extracted from document", ?_⟩
    simp only [run_full_analysis_background, extract_and_store_texts, hpdf,
      hne, if_true]
  · rcases hempty with h | hft
    · exact absurd h hne
    · refine ⟨"Document appears to be empty or contains only images", ?_⟩
      simp only [run_full_analysis_background, extract_and_store_texts, hpdf,
        hne, hft, if_true, if_false]

/-- C10: whenever the compliance capability raises, the stored compliance
outcome is the placeholder with `compliance_score` 1.0, no violations and
status `"not_available"`; likewise a raising crossverify capability is
recorded with `overall_score` 1.0, empty matches and discrepancies and
status `"not_available"`. -/
theorem outage_scores_perfect (mlApi : MlApi) (payload : Json)
    (document_ids : List String) (e1 e2 : String)
    (hc : mlApi "compliance" payload = .error e1)
    (hx : mlApi "crossverify" (crossverifyPayload payload document_ids) =
      .error e2) :
    call_compliance_check mlApi payload =
      .obj [("compliance_score", .num 1), ("violations", .arr []),
        ("checks_performed", .arr []), ("status", .str "not_available"),
        ("message", .str "Compliance endpoint not yet implemented by ML team")] ∧
    call_cross_verification mlApi payload document_ids =
      .obj [("overall_score", .num 1), ("matches", .obj []),
        ("discrepancies", .arr []), ("status", .str "not_available"),
        ("message", .str "Cross-verification endpoint not yet implemented by ML team")] := by
  constructor
  · simp only [call_compliance_check, hc]
  · simp only [call_cross_verification, hx]

/-- Witness for the compliance/crossverify outage placeholders, at a
constantly failing client. -/
theorem outage_scores_perfect_witness :
    call_compliance_check (fun _ _ => .error "down") (.obj []) =
      .obj [("compliance_score", .num 1), ("violations", .arr []),
        ("checks_performed", .arr []), ("status", .str "not_available"),
        ("message", .str "Compliance endpoint not yet implemented by ML team")] :=
  (outage_scores_perfect (fun _ _ => .error "down") (.obj []) ["d1"]
    "down" "down" rfl rfl).1

theorem docStatusOf_congr {db1 db2 : DB} (i : String)
    (h : db1.documents = db2.documents) :
    docStatusOf db1 i = docStatusOf db2 i := by
  simp only [docStatusOf, h]

/-- C1 (amended): under a total scoring outage the run still completes and
the document becomes `done`; but the stored compliance and crossverify
outcomes carry status `"not_available"` (not `"unavailable"`/`"error"`), and
the stored risk outcome has no top-level status at all — its
`"unavailable"` marker sits only inside `raw_ml_response`. -/
theorem run_total_outage (m : MlApi) (e : PdfSource) (y : Nat)
    (d u sp : String) (db : DB) (pages : List (Option String))
    (hdoc : (db.documents.find? (fun r => r.id == d)).isSome = true)
    (hpdf : e sp = .ok pages)
    (hne : ¬ textsOf pages = [])
    (hft : ¬ strStrip (joinPages (textsOf pages)) = "")
    (hml : ∀ ep payload, ∃ msg, m ep payload = .error msg) :
    (run_full_analysis_background m e y d u sp db).1.isOk = true ∧
    docStatusOf (run_full_analysis_background m e y d u sp db).2 d =
      some "done" ∧
    ∃ r, (run_full_analysis_background m e y d u sp db).2.analyses =
        db.analyses ++ [r] ∧
      r.compliance.get "status" = some (.str "not_available") ∧
      r.crossverify.get "status" = some (.str "not_available") ∧
      r.risk.get "status" = none ∧
      ((r.risk.get "raw_ml_response").bind (fun j => j.get "status")) =
        some (.str "unavailable") := by
  rw [run_success_eq m e y d u sp db pages hpdf hne hft]
  refine ⟨runAfterText_isOk _ _ _ _ _ _, ?_, ?_⟩
  · rw [docStatusOf_congr d (runAfterText_documents _ _ _ _ _ _),
      docStatusOf_update]
    rcases Option.isSome_iff_exists.mp hdoc with ⟨r0, hr0⟩
    simp only [docStatusOf, hr0, Option.map_map]
    rfl
  · refine ⟨runAnalysisRow m y d u (joinPages (textsOf pages)),
      runAfterText_analyses _ _ _ _ _ _, ?_, ?_, ?_, ?_⟩
    · rcases hml "compliance" (runPayload y (joinPages (textsOf pages)))
        with ⟨msg, hmsg⟩
      simp only [runAnalysisRow, call_compliance_check, hmsg]
      rfl
    · rcases hml "crossverify" (crossverifyPayload
          (runPayload y (joinPages (textsOf pages))) [d]) with ⟨msg, hmsg⟩
      simp only [runAnalysisRow, call_cross_verification, hmsg]
      rfl
    · rfl
    · rcases hml "predict" (runPayload y (joinPages (textsOf pages)))
        with ⟨msg, hmsg⟩
      simp only [runAnalysisRow, formatRisk, call_risk_prediction, hmsg]
      rfl

/-- Witness for the amended C1 at a concrete store, document and failing
client. -/
theorem run_total_outage_witness :
    (run_full_analysis_background (fun _ _ => .error "down")
      (fun _ => .ok [some "hello"]) 2026 "d1" "u1" "p"
      ⟨[⟨"d1", "processing", "p"⟩], [], [], []⟩).1.isOk = true :=
  (run_total_outage (fun _ _ => .error "down") (fun _ => .ok [some "hello"])
    2026 "d1" "u1" "p" ⟨[⟨"d1", "processing", "p"⟩], [], [], []⟩
    [some "hello"] rfl rfl (by decide) (by decide)
    (fun _ _ => ⟨"down", rfl⟩)).1

/-- C1 (counterexample to the claim as stated): with every capability
raising a connection error, the stored compliance outcome's status is
`"not_available"`, which is neither `"unavailable"` nor `"error"`. -/
theorem run_total_outage_counterexample :
    ¬ (∀ r ∈ (run_full_analysis_background (fun _ _ => .error "down")
        (fun _ => .ok [some "hello"]) 2026 "d1" "u1" "p"
        ⟨[⟨"d1", "processing", "p"⟩], [], [], []⟩).2.analyses,
      r.compliance.get "status" = some (.str "unavailable") ∨
      r.compliance.get "status" = some (.str "error")) := by
  intro hall
  have hr := hall (runAnalysisRow (fun _ _ => .error "down") 2026 "d1" "u1"
    (joinPages (textsOf [some "hello"])))
  have hmem : runAnalysisRow (fun _ _ => .error "down") 2026 "d1" "u1"
      (joinPages (textsOf [some "hello"])) ∈
      (run_full_analysis_background (fun _ _ => .error "down")
        (fun _ => .ok [some "hello"]) 2026 "d1" "u1" "p"
        ⟨[⟨"d1", "processing", "p"⟩], [], [], []⟩).2.analyses := by
    rw [run_success_eq (fun _ _ => .error "down")
      (fun _ => .ok [some "hello"]) 2026 "d1" "u1" "p"
      ⟨[⟨"d1", "processing", "p"⟩], [], [], []⟩ [some "hello"] rfl
      (by decide) (by decide)]
    rw [runAfterText_analyses]
    simp
  have hst : (runAnalysisRow (fun _ _ => .error "down") 2026 "d1" "u1"
      (joinPages (textsOf [some "hello"]))).compliance.get "status" =
      some (.str "not_available") := rfl
  rcases hr hmem with hc | hc <;> rw [hst] at hc <;> simp at hc

/-- C5: empty extraction, or an all-whitespace page set, aborts the run with
an error, marks the document failed, and stores a single error-only
analysis record with empty compliance and crossverify payloads. -/
theorem run_empty_extraction_fails (m : MlApi) (e : PdfSource) (y : Nat)
    (d u sp : String) (db : DB) (pages : List (Option String))
    (hdoc : (db.documents.find? (fun r => r.id == d)).isSome = true)
    (hpdf : e sp = .ok pages)
    (hempty : textsOf pages = [] ∨ strStrip (joinPages (textsOf pages)) = "") :
    ∃ msg,
      (run_full_analysis_background m e y d u sp db).1 =
        .error ("Analysis pipeline failed: " ++ msg) ∧
      (run_full_analysis_background m e y d u sp db).2.analyses =
        db.analyses ++ [failAnalysisRow d u msg] ∧
      ((failAnalysisRow d u msg).risk.get "error" = some (.str msg) ∧
        (failAnalysisRow d u msg).compliance = .obj [] ∧
        (failAnalysisRow d u msg).crossverify = .obj []) ∧
      docStatusOf (run_full_analysis_background m e y d u sp db).2 d =
        some "failed" := by
  rcases run_fail_eq m e y d u sp db pages hpdf hempty with ⟨msg, hrun⟩
  refine ⟨msg, ?_, ?_, ⟨rfl, rfl, rfl⟩, ?_⟩
  · rw [hrun, failRun_fst]
  · rw [hrun, failRun_analyses]
  · rw [hrun, docStatusOf_congr d (failRun_documents _ _ _ _),
      docStatusOf_update]
    rcases Option.isSome_iff_exists.mp hdoc with ⟨r0, hr0⟩
    simp only [docStatusOf, hr0, Option.map_map]
    rfl

/-- Witness for C5 at a PDF source that yields no pages. -/
theorem run_empty_extraction_fails_witness :
    ∃ msg,
      (run_full_analysis_background (fun _ _ => .error "down")
        (fun _ => .ok []) 2026 "d1" "u1" "p"
        ⟨[⟨"d1", "processing", "p"⟩], [], [], []⟩).1 =
        .error ("Analysis pipeline failed: " ++ msg) ∧
      (run_full_analysis_background (fun _ _ => .error "down")
        (fun _ => .ok []) 2026 "d1" "u1" "p"
        ⟨[⟨"d1", "processing", "p"⟩], [], [], []⟩).2.analyses =
        [] ++ [failAnalysisRow "d1" "u1" msg] ∧
      ((failAnalysisRow "d1" "u1" msg).risk.get "error" =
          some (.str msg) ∧
        (failAnalysisRow "d1" "u1" msg).compliance = .obj [] ∧
        (failAnalysisRow "d1" "u1" msg).crossverify = .obj []) ∧
      docStatusOf (run_full_analysis_background (fun _ _ => .error "down")
        (fun _ => .ok []) 2026 "d1" "u1" "p"
        ⟨[⟨"d1", "processing", "p"⟩], [], [], []⟩).2 "d1" =
        some "failed" :=
  run_empty_extraction_fails (fun _ _ => .error "down") (fun _ => .ok [])
    2026 "d1" "u1" "p" ⟨[⟨"d1", "processing", "p"⟩], [], [], []⟩ []
    rfl rfl (Or.inl rfl)

/-- C9: an absent credit amount does not abort the run; the stored risk
outcome's validation errors contain the exact message. -/
theorem run_missing_credit_nonfatal (m : MlApi) (e : PdfSource) (y : Nat)
    (d u sp : String) (db : DB) (pages : List (Option String))
    (hpdf : e sp = .ok pages)
    (hne : ¬ textsOf pages = [])
    (hft : ¬ strStrip (joinPages (textsOf pages)) = "")
    (hca : (parse_credit_fields y (joinPages (textsOf pages))).credit_amount =
      none) :
    (run_full_analysis_background m e y d u sp db).1.isOk = true ∧
    ∃ r vs, (run_full_analysis_background m e y d u sp db).2.analyses =
        db.analyses ++ [r] ∧
      r.risk.get "validation_errors" = some (.arr vs) ∧
      Json.str "Credit amount not found in document" ∈ vs := by
  rw [run_success_eq m e y d u sp db pages hpdf hne hft]
  refine ⟨runAfterText_isOk _ _ _ _ _ _, ?_⟩
  have hmem : "Credit amount not found in document" ∈
      (validate_parsed_fields
        (parse_credit_fields y (joinPages (textsOf pages)))).2 := by
    rw [validate_decomp, hca]
    simp [vCreditErrors]
  have hfalse : (validate_parsed_fields
      (parse_credit_fields y (joinPages (textsOf pages)))).1 = false := by
    rw [validate_fst]
    rcases h2 : (validate_parsed_fields
        (parse_credit_fields y (joinPages (textsOf pages)))).2 with _ | ⟨x, xs⟩
    · rw [h2] at hmem
      cases hmem
    · rfl
  refine ⟨runAnalysisRow m y d u (joinPages (textsOf pages)),
    (validate_parsed_fields
      (parse_credit_fields y (joinPages (textsOf pages)))).2.map .str,
    runAfterText_analyses _ _ _ _ _ _, ?_, ?_⟩
  · have hget : (runAnalysisRow m y d u (joinPages (textsOf pages))).risk.get
        "validation_errors" =
        some (if (validate_parsed_fields
            (parse_credit_fields y (joinPages (textsOf pages)))).1 = true
          then Json.arr []
          else .arr ((validate_parsed_fields
            (parse_credit_fields y (joinPages (textsOf pages)))).2.map .str)) :=
      rfl
    rw [hget, hfalse]
    simp
  · exact List.mem_map_of_mem _ hmem

set_option maxRecDepth 40000 in
/-- Witness for C9 at a one-page document with no credit amount. -/
theorem run_missing_credit_nonfatal_witness :
    (run_full_analysis_background (fun _ _ => .error "down")
      (fun _ => .ok [some "age: 45"]) 2026 "d1" "u1" "p"
      ⟨[⟨"d1", "processing", "p"⟩], [], [], []⟩).1.isOk = true :=
  (run_missing_credit_nonfatal (fun _ _ => .error "down")
    (fun _ => .ok [some "age: 45"]) 2026 "d1" "u1" "p"
    ⟨[⟨"d1", "processing", "p"⟩], [], [], []⟩ [some "age: 45"]
    rfl (by decide) (by decide) (by with_unfolding_all rfl)).1

/-!
Counting lemmas for the rerun claim.
-/

theorem numberPages_length (n : Nat) (ps : List (Option String)) :
    (numberPages n ps).length = ps.length := by
  induction ps generalizing n with
  | nil => rfl
  | cons p ps ih => simp [numberPages, ih]

theorem filter_not_filter {α : Type} (p : α → Bool) (l : List α) :
    (l.filter (fun a => !(p a))).filter p = [] := by
  induction l with
  | nil => rfl
  | cons a l ih =>
    by_cases h : p a = true
    · simp [List.filter_cons, h, ih]
    · have h2 : p a = false := by simpa using h
      simp [List.filter_cons, h2, ih]

theorem run_analyses_one (m : MlApi) (e : PdfSource) (y : Nat)
    (d u sp : String) (db : DB) :
    ∃ r, (run_full_analysis_background m e y d u sp db).2.analyses =
      db.analyses ++ [r] ∧ r.document_id = d := by
  rcases hE : e sp with err | pages
  · refine ⟨failAnalysisRow d u err, ?_, rfl⟩
    simp only [run_full_analysis_background, extract_and_store_texts, hE]
    exact failRun_analyses _ _ _ _
  · by_cases hne : textsOf pages = []
    · refine ⟨failAnalysisRow d u "No text extracted from document", ?_, rfl⟩
      simp only [run_full_analysis_background, extract_and_store_texts, hE,
        hne, if_true]
      exact failRun_analyses _ _ _ _
    · by_cases hft : strStrip (joinPages (textsOf pages)) = ""
      · refine ⟨failAnalysisRow d u
          "Document appears to be empty or contains only images", ?_, rfl⟩
        simp only [run_full_analysis_background, extract_and_store_texts, hE,
          hne, hft, if_true, if_false]
        exact failRun_analyses _ _ _ _
      · refine ⟨runAnalysisRow m y d u (joinPages (textsOf pages)), ?_, rfl⟩
        rw [run_success_eq m e y d u sp db pages hE hne hft]
        exact runAfterText_analyses _ _ _ _ _ _

theorem run_texts_eq (m : MlApi) (e : PdfSource) (y : Nat)
    (d u sp : String) (db : DB) (pages : List (Option String))
    (hpdf : e sp = .ok pages) :
    (run_full_analysis_background m e y d u sp db).2.extracted_texts =
      db.extracted_texts ++
        (textsOf pages).map (fun t => ⟨d, u, t.1, t.2⟩) := by
  by_cases hne : textsOf pages = []
  · simp only [run_full_analysis_background, extract_and_store_texts, hpdf,
      hne, if_true]
    exact failRun_texts _ _ _ _
  · by_cases hft : strStrip (joinPages (textsOf pages)) = ""
    · simp only [run_full_analysis_background, extract_and_store_texts, hpdf,
        hne, hft, if_true, if_false]
      exact failRun_texts _ _ _ _
    · rw [run_success_eq m e y d u sp db pages hpdf hne hft]
      exact runAfterText_texts _ _ _ _ _ _

theorem run_documents_st (m : MlApi) (e : PdfSource) (y : Nat)
    (d u sp : String) (db : DB) :
    ∃ st, (run_full_analysis_background m e y d u sp db).2.documents =
      (updateDocStatus db d st).documents := by
  rcases hE : e sp with err | pages
  · refine ⟨"failed", ?_⟩
    simp only [run_full_analysis_background, extract_and_store_texts, hE]
    exact failRun_documents _ _ _ _
  · by_cases hne : textsOf pages = []
    · refine ⟨"failed", ?_⟩
      simp only [run_full_analysis_background, extract_and_store_texts, hE,
        hne, if_true]
      exact failRun_documents _ _ _ _
    · by_cases hft : strStrip (joinPages (textsOf pages)) = ""
      · refine ⟨"failed", ?_⟩
        simp only [run_full_analysis_background, extract_and_store_texts, hE,
          hne, hft, if_true, if_false]
        exact failRun_documents _ _ _ _
      · refine ⟨"done", ?_⟩
        rw [run_success_eq m e y d u sp db pages hE hne hft]
        exact runAfterText_documents _ _ _ _ _ _

/-- C4: each rerun resets the document to processing, deletes its prior
analyses and extracted texts, then re-runs the pipeline; two immediate
reruns leave exactly one analysis row for the document and as many
extracted-text rows as the source has pages. -/
theorem rerun_twice_idempotent (m : MlApi) (e : PdfSource) (y : Nat)
    (d u : String) (db : DB) (doc : DocRow) (pages : List (Option String))
    (hdoc : db.documents.find? (fun r => r.id == d) = some doc)
    (hpdf : e doc.storage_path = .ok pages) :
    rerun_analysis m e y d u db =
      run_full_analysis_background m e y d u doc.storage_path
        (deleteDocTexts (deleteDocAnalyses
          (updateDocStatus db d "processing") d) d) ∧
    ((rerun_analysis m e y d u
        (rerun_analysis m e y d u db).2).2.analyses.filter
        (fun a => a.document_id == d)).length = 1 ∧
    ((rerun_analysis m e y d u
        (rerun_analysis m e y d u db).2).2.extracted_texts.filter
        (fun t => t.document_id == d)).length = pages.length := by
  have hre1 : rerun_analysis m e y d u db =
      run_full_analysis_background m e y d u doc.storage_path
        (deleteDocTexts (deleteDocAnalyses
          (updateDocStatus db d "processing") d) d) := by
    simp only [rerun_analysis, hdoc]
  obtain ⟨st1, hst1⟩ := run_documents_st m e y d u doc.storage_path
    (deleteDocTexts (deleteDocAnalyses (updateDocStatus db d "processing") d) d)
  have hfind1 : (rerun_analysis m e y d u db).2.documents.find?
      (fun r => r.id == d) = some { doc with status := st1 } := by
    rw [hre1, hst1]
    show ((db.documents.map
        (fun r => if r.id == d then { r with status := "processing" } else r)).map
        (fun r => if r.id == d then { r with status := st1 } else r)).find?
        (fun r => r.id == d) = _
    rw [find_map_update, find_map_update, hdoc]
    rfl
  have hre2 : rerun_analysis m e y d u (rerun_analysis m e y d u db).2 =
      run_full_analysis_background m e y d u doc.storage_path
        (deleteDocTexts (deleteDocAnalyses
          (updateDocStatus (rerun_analysis m e y d u db).2 d "processing") d)
          d) := by
    rw [rerun_analysis.eq_def, hfind1]
  refine ⟨hre1, ?_, ?_⟩
  · obtain ⟨r2, hr2, hr2d⟩ := run_analyses_one m e y d u doc.storage_path
      (deleteDocTexts (deleteDocAnalyses
        (updateDocStatus (rerun_analysis m e y d u db).2 d "processing") d) d)
    rw [hre2, hr2]
    show ((((rerun_analysis m e y d u db).2.analyses.filter
        (fun a => !(a.document_id == d))) ++ [r2]).filter
        (fun a => a.document_id == d)).length = 1
    rw [List.filter_append, filter_not_filter]
    simp [hr2d]
  · rw [hre2, run_texts_eq m e y d u doc.storage_path _ pages hpdf]
    show ((((rerun_analysis m e y d u db).2.extracted_texts.filter
        (fun t => !(t.document_id == d))) ++
        (textsOf pages).map (fun t => (⟨d, u, t.1, t.2⟩ : TextRow))).filter
        (fun t => t.document_id == d)).length = pages.length
    rw [List.filter_append, filter_not_filter, List.nil_append]
    have hrows : ((textsOf pages).map
        (fun t => (⟨d, u, t.1, t.2⟩ : TextRow))).filter
        (fun t => t.document_id == d) =
        (textsOf pages).map (fun t => (⟨d, u, t.1, t.2⟩ : TextRow)) := by
      rw [List.filter_eq_self]
      intro a ha
      rcases List.mem_map.mp ha with ⟨t, _, rfl⟩
      simp
    rw [hrows, List.length_map]
    exact numberPages_length 1 pages

set_option maxRecDepth 40000 in
set_option maxHeartbeats 1000000 in
/-- Witness for C4 at a concrete store, document and one-page PDF. -/
theorem rerun_twice_idempotent_witness :
    ((rerun_analysis (fun _ _ => .error "down") (fun _ => .ok [some "hello"])
        2026 "d1" "u1"
        (rerun_analysis (fun _ _ => .error "down")
          (fun _ => .ok [some "hello"]) 2026 "d1" "u1"
          ⟨[⟨"d1", "processing", "p"⟩], [], [], []⟩).2).2.analyses.filter
        (fun a => a.document_id == "d1")).length = 1 :=
  (rerun_twice_idempotent (fun _ _ => .error "down")
    (fun _ => .ok [some "hello"]) 2026 "d1" "u1"
    ⟨[⟨"d1", "processing", "p"⟩], [], [], []⟩ ⟨"d1", "processing", "p"⟩
    [some "hello"] rfl rfl).2.1

set_option maxRecDepth 40000 in
set_option maxHeartbeats 1000000 in
/-- Witness for C2: the sample text's age and credit amount satisfy the
extracted bounds. -/
theorem parse_credit_fields_sound_witness :
    (18 ≤ 45 ∧ 45 ≤ 100) ∧ (0 : ℚ) < 50000 :=
  ⟨(parse_credit_fields_sound 2026 sampleText).2.2.2.2.2.1 45
      (by with_unfolding_all rfl),
    (parse_credit_fields_sound 2026 sampleText).2.2.2.2.2.2.2.1 50000
      (by with_unfolding_all rfl)⟩

set_option maxRecDepth 40000 in
/-- Witness for C6 at a fully valid field set. -/
theorem validate_parsed_fields_shape_witness :
    (validate_parsed_fields ⟨some 30, some "male", "skilled", "own", "little",
      "little", some 100, some 12, "car"⟩).2 = [] :=
  ((validate_parsed_fields_shape ⟨some 30, some "male", "skilled", "own",
      "little", "little", some 100, some 12, "car"⟩).2.2.2.2.2.2.2.2.2.2).mp
    (by with_unfolding_all rfl)

set_option maxRecDepth 40000 in
/-- Witness for C8 at a 24-month duration mention. -/
theorem extract_duration_months_shape_witness :
    extract_duration_months "duration: 24 months" = some 24 ∧
      1 ≤ 24 ∧ 24 ≤ 120 :=
  ⟨(extract_duration_months_shape "duration: 24 months").1 24
      (by with_unfolding_all rfl),
    ((extract_duration_months_shape "duration: 24 months").2.2 24
      (by with_unfolding_all rfl)).1⟩

end Iris
